import Mathlib

/-!
Formal model of the chat backend core: conversations, participants, messages,
reactions and bookmarks, together with the route handlers that drive them.
Route control flow is translated from apps/backend/src/routes/conversations.ts
and apps/backend/src/routes/messages.ts.  The ChatUsecase and repository
operations those routes call are not part of the source tree, so they are
modelled from the specification; each such definition is marked
Modelled from the spec.
-/

/-- Conversation kind (spec section 3): Direct or Group. -/
inductive ConvKind where
  | direct
  | group
deriving DecidableEq

/-- Participant role (spec section 3): Member or Admin. -/
inductive Role where
  | member
  | admin
deriving DecidableEq

/-- Membership system-message event (spec section 3): Join or Leave. -/
inductive SystemEvent where
  | join
  | leave
deriving DecidableEq

/-- Typed failure taxonomy of the core (spec section 7). -/
inductive ChatError where
  | invalidArgument
  | notFound
  | forbidden
  | conflict
  | unavailable
deriving DecidableEq

instance instDecEqExcept {e a : Type} [DecidableEq e] [DecidableEq a] :
    DecidableEq (Except e a) := fun x y =>
  match x, y with
  | Except.error e1, Except.error e2 =>
    if h : e1 = e2 then Decidable.isTrue (by rw [h])
    else Decidable.isFalse (fun hc => h (Except.error.inj hc))
  | Except.error _, Except.ok _ => Decidable.isFalse (fun hc => Except.noConfusion hc)
  | Except.ok _, Except.error _ => Decidable.isFalse (fun hc => Except.noConfusion hc)
  | Except.ok x1, Except.ok y1 =>
    if h : x1 = y1 then Decidable.isTrue (by rw [h])
    else Decidable.isFalse (fun hc => h (Except.ok.inj hc))

/-- HTTP status carried by an HttpError for each core failure, as surfaced by
the routes through handleError (utils/errors maps the taxonomy to statuses). -/
def ChatError.httpStatus : ChatError → Nat
  | ChatError.invalidArgument => 400
  | ChatError.notFound => 404
  | ChatError.forbidden => 403
  | ChatError.conflict => 409
  | ChatError.unavailable => 503

/-- Representative HttpError message for each core failure. -/
def ChatError.httpMessage : ChatError → String
  | ChatError.invalidArgument => "invalid argument"
  | ChatError.notFound => "not found"
  | ChatError.forbidden => "forbidden"
  | ChatError.conflict => "conflict"
  | ChatError.unavailable => "unavailable"

/-- Conversation entity (spec section 3).  Ids are server-assigned naturals. -/
structure Conversation where
  id : Nat
  kind : ConvKind
  name : Option String
  createdAt : Nat
deriving DecidableEq

/-- Participant entity (spec section 3).  leftAt = none means active;
rows are never physically deleted. -/
structure Participant where
  conversationId : Nat
  userId : String
  role : Role
  joinedAt : Nat
  leftAt : Option Nat
deriving DecidableEq

/-- Message entity (spec section 3).  senderUserId = none exactly for system
messages; ids are server-assigned and monotonically increasing. -/
structure Message where
  id : Nat
  conversationId : Nat
  senderUserId : Option String
  text : String
  systemEvent : Option SystemEvent
  createdAt : Nat
deriving DecidableEq

/-- Reaction entity (spec section 3), unique on (messageId, userId, emoji). -/
structure Reaction where
  messageId : Nat
  userId : String
  emoji : String
  createdAt : Nat
deriving DecidableEq

/-- Bookmark entity (spec section 3), unique on (messageId, userId). -/
structure Bookmark where
  messageId : Nat
  userId : String
  createdAt : Nat
deriving DecidableEq

/-- Durable store behind the Storage Port (spec sections 3 and 6).  Messages
are stored newest-first: every insert prepends, and message ids are assigned
from the monotonically increasing counter nextMessageId. -/
structure ChatState where
  conversations : List Conversation
  participants : List Participant
  messages : List Message
  reactions : List Reaction
  bookmarks : List Bookmark
  nextConversationId : Nat
  nextMessageId : Nat
deriving DecidableEq

/-- The empty store. -/
def initialState : ChatState :=
  { conversations := [], participants := [], messages := [], reactions := [],
    bookmarks := [], nextConversationId := 0, nextMessageId := 0 }

/-- A fresh active membership row. -/
def participantRow (conversationId : Nat) (userId : String) (now : Nat) : Participant :=
  { conversationId := conversationId, userId := userId, role := Role.member,
    joinedAt := now, leftAt := none }

/-- Does this row record an active membership of userId in conversationId? -/
def activeRowMatches (conversationId : Nat) (userId : String) (p : Participant) : Bool :=
  p.conversationId == conversationId && p.userId == userId && p.leftAt.isNone

/-- Does this row record any membership (active or left) of userId? -/
def anyRowMatches (conversationId : Nat) (userId : String) (p : Participant) : Bool :=
  p.conversationId == conversationId && p.userId == userId

/-- Modelled from the spec (4.3): userId is an active participant of the
conversation. -/
def isActiveParticipant (conversationId : Nat) (userId : String) (s : ChatState) : Bool :=
  s.participants.any (activeRowMatches conversationId userId)

/-- Modelled from the spec (4.3): userId has, or had, a Participant row for
the conversation. -/
def hasParticipantRow (conversationId : Nat) (userId : String) (s : ChatState) : Bool :=
  s.participants.any (anyRowMatches conversationId userId)

/-- Does a message with this id exist? -/
def messageExists (messageId : Nat) (s : ChatState) : Bool :=
  s.messages.any (fun m => m.id == messageId)

/-- Does this reaction row carry the given (messageId, userId, emoji) key? -/
def reactionMatches (messageId : Nat) (userId emoji : String) (r : Reaction) : Bool :=
  r.messageId == messageId && r.userId == userId && r.emoji == emoji

/-- Modelled from the spec (4.4): the (messageId, userId, emoji) key exists. -/
def reactionExists (messageId : Nat) (userId emoji : String) (s : ChatState) : Bool :=
  s.reactions.any (reactionMatches messageId userId emoji)

/-- Does this bookmark row carry the given (messageId, userId) key? -/
def bookmarkMatches (messageId : Nat) (userId : String) (b : Bookmark) : Bool :=
  b.messageId == messageId && b.userId == userId

/-- Modelled from the spec (4.5): the (messageId, userId) key exists. -/
def bookmarkExists (messageId : Nat) (userId : String) (s : ChatState) : Bool :=
  s.bookmarks.any (bookmarkMatches messageId userId)

/-- Ordering key of a message (spec section 3): (createdAt, id). -/
def msgKey (m : Message) : Nat × Nat := (m.createdAt, m.id)

/-- Strict lexicographic order on message keys; keyLtB a b means a is
strictly older than b. -/
def keyLtB (a b : Nat × Nat) : Bool :=
  decide (a.1 < b.1) || (decide (a.1 = b.1) && decide (a.2 < b.2))

/-- The list is strictly descending in message key: newest first. -/
def sortedDescB : List Message → Bool
  | [] => true
  | [_] => true
  | x :: y :: rest => keyLtB (msgKey y) (msgKey x) && sortedDescB (y :: rest)

/-- Insert a message into a list kept descending by key. -/
def insertDesc (m : Message) : List Message → List Message
  | [] => [m]
  | x :: xs => if keyLtB (msgKey m) (msgKey x) then x :: insertDesc m xs else m :: x :: xs

/-- Sort messages descending by (createdAt, id) — the ORDER BY of the
message query (spec sections 4.3 and 6). -/
def sortDesc : List Message → List Message
  | [] => []
  | x :: xs => insertDesc x (sortDesc xs)

/-- Modelled from the spec (4.3): default page size, a configuration
constant whose concrete value the spec leaves open; 50 is representative. -/
def DEFAULT_MESSAGE_LIMIT : Nat := 50

/-- Modelled from the spec (4.3): maximum page size, a configuration
constant whose concrete value the spec leaves open; 100 is representative. -/
def MAX_MESSAGE_LIMIT : Nat := 100

/-- Modelled from the spec (4.3): an absent or out-of-range limit falls back
to the default, and a limit above the maximum is capped to the maximum. -/
def resolveLimit : Option Int → Nat
  | none => DEFAULT_MESSAGE_LIMIT
  | some v => if v < 1 then DEFAULT_MESSAGE_LIMIT else min v.toNat MAX_MESSAGE_LIMIT

/-- Modelled from the spec (4.1): create the Conversation and one active
Participant row per supplied user id in a single atomic Storage Port call,
after validating the Direct and Group shape invariants. -/
def createConversation (kind : ConvKind) (name : Option String)
    (participantUserIds : List String) (now : Nat) (s : ChatState) :
    Except ChatError (Conversation × ChatState) :=
  match kind with
  | ConvKind.direct =>
    if participantUserIds.length ≠ 2 then Except.error ChatError.invalidArgument
    else if name.isSome then Except.error ChatError.invalidArgument
    else
      Except.ok
        ({ id := s.nextConversationId, kind := kind, name := name, createdAt := now },
         { s with
           conversations :=
             { id := s.nextConversationId, kind := kind, name := name, createdAt := now }
               :: s.conversations,
           participants :=
             participantUserIds.map (fun u => participantRow s.nextConversationId u now)
               ++ s.participants,
           nextConversationId := s.nextConversationId + 1 })
  | ConvKind.group =>
    if name.getD "" = "" then Except.error ChatError.invalidArgument
    else if participantUserIds.length < 2 then Except.error ChatError.invalidArgument
    else
      Except.ok
        ({ id := s.nextConversationId, kind := kind, name := name, createdAt := now },
         { s with
           conversations :=
             { id := s.nextConversationId, kind := kind, name := name, createdAt := now }
               :: s.conversations,
           participants :=
             participantUserIds.map (fun u => participantRow s.nextConversationId u now)
               ++ s.participants,
           nextConversationId := s.nextConversationId + 1 })

/-- Modelled from the spec (4.2): add a participant — NotFound if the
conversation is absent, Conflict if an active row already exists,
InvalidArgument for Direct conversations. -/
def addParticipant (conversationId : Nat) (userId : String) (now : Nat) (s : ChatState) :
    Except ChatError (Participant × ChatState) :=
  match s.conversations.find? (fun c => c.id == conversationId) with
  | none => Except.error ChatError.notFound
  | some conv =>
    if isActiveParticipant conversationId userId s then Except.error ChatError.conflict
    else if conv.kind = ConvKind.direct then Except.error ChatError.invalidArgument
    else
      Except.ok (participantRow conversationId userId now,
        { s with participants := participantRow conversationId userId now :: s.participants })

/-- The soft-leave update applied to each matching active row. -/
def leaveUpdate (conversationId : Nat) (userId : String) (now : Nat) (q : Participant) :
    Participant :=
  if activeRowMatches conversationId userId q then { q with leftAt := some now } else q

/-- Modelled from the spec (4.2): soft-remove a participant by setting leftAt
to the current time; NotFound when no active row exists for the pair. -/
def markParticipantLeft (conversationId : Nat) (userId : String) (now : Nat) (s : ChatState) :
    Except ChatError (Participant × ChatState) :=
  match s.participants.find? (activeRowMatches conversationId userId) with
  | none => Except.error ChatError.notFound
  | some p =>
    Except.ok ({ p with leftAt := some now },
      { s with participants := s.participants.map (leaveUpdate conversationId userId now) })

/-- Storage insert of a message with the server-assigned monotone id
(spec section 6); the store is kept newest-first. -/
def insertMessage (conversationId : Nat) (senderUserId : Option String) (text : String)
    (systemEvent : Option SystemEvent) (now : Nat) (s : ChatState) : Message × ChatState :=
  ({ id := s.nextMessageId, conversationId := conversationId, senderUserId := senderUserId,
     text := text, systemEvent := systemEvent, createdAt := now },
   { s with
     messages :=
       { id := s.nextMessageId, conversationId := conversationId,
         senderUserId := senderUserId, text := text, systemEvent := systemEvent,
         createdAt := now } :: s.messages,
     nextMessageId := s.nextMessageId + 1 })

/-- Modelled from the spec (4.3): send a user message — Forbidden unless the
sender is an active participant, InvalidArgument on empty text. -/
def sendMessage (conversationId : Nat) (senderUserId : String) (text : String) (now : Nat)
    (s : ChatState) : Except ChatError (Message × ChatState) :=
  if isActiveParticipant conversationId senderUserId s then
    if text = "" then Except.error ChatError.invalidArgument
    else Except.ok (insertMessage conversationId (some senderUserId) text none now s)
  else Except.error ChatError.forbidden

/-- Modelled from the spec (4.3): emit a system message with
senderUserId = null and no participant-authorization check. -/
def createSystemMessage (conversationId : Nat) (systemEvent : SystemEvent) (text : String)
    (now : Nat) (s : ChatState) : Except ChatError (Message × ChatState) :=
  Except.ok (insertMessage conversationId none text (some systemEvent) now s)

/-- Modelled from the spec (4.3): cursor-paginated message listing —
Forbidden unless the caller has (or had) a Participant row; results strictly
older than the cursor, ordered by (createdAt desc, id desc), capped at the
resolved limit. -/
def listMessages (conversationId : Nat) (callerUserId : String)
    (before : Option (Nat × Nat)) (limit : Option Int) (s : ChatState) :
    Except ChatError (List Message) :=
  if hasParticipantRow conversationId callerUserId s then
    Except.ok
      ((match before with
        | none => sortDesc (s.messages.filter (fun m => m.conversationId == conversationId))
        | some c =>
          (sortDesc (s.messages.filter (fun m => m.conversationId == conversationId))).filter
            (fun m => keyLtB (msgKey m) c)).take (resolveLimit limit))
  else Except.error ChatError.forbidden

/-- Modelled from the spec (4.4): add a reaction — NotFound if the message is
absent, Conflict if the (messageId, userId, emoji) key already exists. -/
def addReaction (messageId : Nat) (userId emoji : String) (now : Nat) (s : ChatState) :
    Except ChatError (Reaction × ChatState) :=
  if messageExists messageId s then
    if reactionExists messageId userId emoji s then Except.error ChatError.conflict
    else
      Except.ok
        ({ messageId := messageId, userId := userId, emoji := emoji, createdAt := now },
         { s with reactions :=
             { messageId := messageId, userId := userId, emoji := emoji, createdAt := now }
               :: s.reactions })
  else Except.error ChatError.notFound

/-- Modelled from the spec (4.4): remove a reaction, returning the removed
row; NotFound if no matching row. -/
def removeReaction (messageId : Nat) (emoji userId : String) (s : ChatState) :
    Except ChatError (Reaction × ChatState) :=
  match s.reactions.find? (reactionMatches messageId userId emoji) with
  | none => Except.error ChatError.notFound
  | some r =>
    Except.ok (r,
      { s with reactions :=
          s.reactions.filter (fun q => !(reactionMatches messageId userId emoji q)) })

/-- Modelled from the spec (4.5): add a bookmark — NotFound if the message is
absent, Conflict if already bookmarked by this user. -/
def addBookmark (messageId : Nat) (userId : String) (now : Nat) (s : ChatState) :
    Except ChatError (Bookmark × ChatState) :=
  if messageExists messageId s then
    if bookmarkExists messageId userId s then Except.error ChatError.conflict
    else
      Except.ok
        ({ messageId := messageId, userId := userId, createdAt := now },
         { s with bookmarks :=
             { messageId := messageId, userId := userId, createdAt := now } :: s.bookmarks })
  else Except.error ChatError.notFound

/-- Modelled from the spec (4.5): remove a bookmark; NotFound if absent. -/
def removeBookmark (messageId : Nat) (userId : String) (s : ChatState) :
    Except ChatError (Bookmark × ChatState) :=
  match s.bookmarks.find? (bookmarkMatches messageId userId) with
  | none => Except.error ChatError.notFound
  | some b =>
    Except.ok (b,
      { s with bookmarks := s.bookmarks.filter (fun q => !(bookmarkMatches messageId userId q)) })

/-- One mutating core operation succeeding, as a single atomic transition of
the durable store (spec section 5: every operation is one all-or-nothing
Storage Port call). -/
inductive Step : ChatState → ChatState → Prop where
  | createConv {k : ConvKind} {nm : Option String} {ids : List String} {now : Nat}
      {s : ChatState} {c : Conversation} {s1 : ChatState} :
      createConversation k nm ids now s = Except.ok (c, s1) → Step s s1
  | addPart {cid : Nat} {uid : String} {now : Nat} {s : ChatState} {p : Participant}
      {s1 : ChatState} :
      addParticipant cid uid now s = Except.ok (p, s1) → Step s s1
  | leave {cid : Nat} {uid : String} {now : Nat} {s : ChatState} {p : Participant}
      {s1 : ChatState} :
      markParticipantLeft cid uid now s = Except.ok (p, s1) → Step s s1
  | send {cid : Nat} {uid text : String} {now : Nat} {s : ChatState} {m : Message}
      {s1 : ChatState} :
      sendMessage cid uid text now s = Except.ok (m, s1) → Step s s1
  | emitSys {cid : Nat} {ev : SystemEvent} {text : String} {now : Nat} {s : ChatState}
      {m : Message} {s1 : ChatState} :
      createSystemMessage cid ev text now s = Except.ok (m, s1) → Step s s1
  | react {mid : Nat} {uid emoji : String} {now : Nat} {s : ChatState} {r : Reaction}
      {s1 : ChatState} :
      addReaction mid uid emoji now s = Except.ok (r, s1) → Step s s1
  | unreact {mid : Nat} {emoji uid : String} {s : ChatState} {r : Reaction}
      {s1 : ChatState} :
      removeReaction mid emoji uid s = Except.ok (r, s1) → Step s s1
  | mark {mid : Nat} {uid : String} {now : Nat} {s : ChatState} {b : Bookmark}
      {s1 : ChatState} :
      addBookmark mid uid now s = Except.ok (b, s1) → Step s s1
  | unmark {mid : Nat} {uid : String} {s : ChatState} {b : Bookmark} {s1 : ChatState} :
      removeBookmark mid uid s = Except.ok (b, s1) → Step s s1

/-- Every conversation in the store has at least one Participant row. -/
def ConversationsHaveParticipants (s : ChatState) : Prop :=
  ∀ c ∈ s.conversations, ∃ p ∈ s.participants, p.conversationId = c.id

/-- The active membership rows of a conversation. -/
def activeParticipants (conversationId : Nat) (s : ChatState) : List Participant :=
  s.participants.filter (fun p => p.conversationId == conversationId && p.leftAt.isNone)

/-- Decimal digit value of a character, none for anything else. -/
def digitVal (c : Char) : Option Nat :=
  if c.isDigit then some (c.toNat - 48) else none

/-- Accumulate a decimal numeral; none as soon as a non-digit appears. -/
def natFromDigits : List Char → Nat → Option Nat
  | [], acc => some acc
  | c :: rest, acc =>
    match digitVal c with
    | none => none
    | some d => natFromDigits rest (acc * 10 + d)

/-- Restricted model of JavaScript Number() on the limit query parameter:
the empty string is 0, a decimal integer literal with an optional leading
minus is its value, and any other string is NaN (none).  Fractional,
hexadecimal and padded numerals are outside the model. -/
def jsNumber (str : String) : Option Int :=
  if str = "" then some 0
  else
    match str.data with
    | [] => some 0
    | '-' :: rest =>
      if rest = [] then none
      else (natFromDigits rest 0).map (fun n => -(n : Int))
    | cs => (natFromDigits cs 0).map (fun n => (n : Int))

/-- Limit parsing of GET /conversations/:id/messages (conversations.ts lines
85 to 87): a missing, empty, NaN or zero limit parameter becomes undefined;
JavaScript truthiness makes 0 fall through to undefined. -/
def routeLimit (limitParam : Option String) : Option Int :=
  match limitParam with
  | none => none
  | some str =>
    if str = "" then none
    else
      match jsNumber str with
      | none => none
      | some v => if v = 0 then none else some v

/-- What a route returns: a success payload with its status code, or a JSON
error body with its status code. -/
inductive RouteOutcome (α : Type) where
  | success : Nat → α → RouteOutcome α
  | failure : Nat → String → RouteOutcome α
deriving DecidableEq

/-- handleError (conversations.ts lines 14 to 20, messages.ts lines 10 to
16): an HttpError becomes a JSON body with its status. -/
def handleError {α : Type} (e : ChatError) : RouteOutcome α :=
  RouteOutcome.failure e.httpStatus e.httpMessage

/-- JavaScript falsiness of an optional query parameter: absent or empty. -/
def jsFalsy (q : Option String) : Bool := q.getD "" = ""

/-- POST /conversations/:id/participants (conversations.ts lines 53 to 68):
persist the participant, then emit the Join system message; both awaits sit
in one try block, so an error from either becomes the response via
handleError.  The emission call is abstracted as emit so that a storage
failure during emission (spec section 7, Unavailable) can be expressed. -/
def postParticipantsHandler (conversationId : Nat) (payloadUserId : String) (now : Nat)
    (emit : ChatState → Except ChatError (Message × ChatState)) (s : ChatState) :
    RouteOutcome Participant × ChatState :=
  match addParticipant conversationId payloadUserId now s with
  | Except.error e => (handleError e, s)
  | Except.ok (participant, s1) =>
    match emit s1 with
    | Except.error e => (handleError e, s1)
    | Except.ok (_, s2) => (RouteOutcome.success 201 participant, s2)

/-- The emission the route actually performs (conversations.ts lines 59 to
63): a join system message with senderUserId null and text
userId followed by the literal string, a space then joined. -/
def joinEmit (conversationId : Nat) (payloadUserId : String) (now : Nat) :
    ChatState → Except ChatError (Message × ChatState) :=
  fun s => createSystemMessage conversationId SystemEvent.join (payloadUserId ++ " joined") now s

/-- POST /conversations/:id/participants with the join emission in place. -/
def postParticipantsRoute (conversationId : Nat) (payloadUserId : String) (now : Nat)
    (s : ChatState) : RouteOutcome Participant × ChatState :=
  postParticipantsHandler conversationId payloadUserId now
    (joinEmit conversationId payloadUserId now) s

/-- DELETE /messages/:id/reactions/:emoji (messages.ts lines 30 to 45): a
falsy userId query parameter is rejected with 400 before the usecase runs. -/
def deleteReactionsHandler (messageId : Nat) (emoji : String) (userId : Option String)
    (s : ChatState) : RouteOutcome Reaction × ChatState :=
  if jsFalsy userId then (RouteOutcome.failure 400 "userId is required", s)
  else
    match removeReaction messageId emoji (userId.getD "") s with
    | Except.error e => (handleError e, s)
    | Except.ok (r, s1) => (RouteOutcome.success 200 r, s1)

/-- DELETE /messages/:id/bookmarks (messages.ts lines 59 to 73): a falsy
userId query parameter is rejected with 400 before the usecase runs. -/
def deleteBookmarksHandler (messageId : Nat) (userId : Option String) (s : ChatState) :
    RouteOutcome Bookmark × ChatState :=
  if jsFalsy userId then (RouteOutcome.failure 400 "userId is required", s)
  else
    match removeBookmark messageId (userId.getD "") s with
    | Except.error e => (handleError e, s)
    | Except.ok (b, s1) => (RouteOutcome.success 200 b, s1)

/-- GET /conversations/:id/messages (conversations.ts lines 81 to 95): parse
the limit, default the user id to the empty string, delegate. -/
def getMessagesHandler (conversationId : Nat) (userId : Option String)
    (before : Option (Nat × Nat)) (limitParam : Option String) (s : ChatState) :
    RouteOutcome (List Message) :=
  match listMessages conversationId (userId.getD "") before (routeLimit limitParam) s with
  | Except.error e => handleError e
  | Except.ok msgs => RouteOutcome.success 200 msgs

/-- A populated store used by the concrete witnesses: one group conversation
with two active members a and b, a member c who left, and three messages at
strictly increasing timestamps. -/
def demoState : ChatState :=
  { conversations := [{ id := 0, kind := ConvKind.group, name := some "Trip", createdAt := 0 }],
    participants :=
      [{ conversationId := 0, userId := "a", role := Role.member, joinedAt := 0, leftAt := none },
       { conversationId := 0, userId := "b", role := Role.member, joinedAt := 0, leftAt := none },
       { conversationId := 0, userId := "c", role := Role.member, joinedAt := 0, leftAt := some 3 }],
    messages :=
      [{ id := 2, conversationId := 0, senderUserId := some "a", text := "m3",
         systemEvent := none, createdAt := 3 },
       { id := 1, conversationId := 0, senderUserId := some "b", text := "m2",
         systemEvent := none, createdAt := 2 },
       { id := 0, conversationId := 0, senderUserId := some "a", text := "m1",
         systemEvent := none, createdAt := 1 }],
    reactions := [], bookmarks := [], nextConversationId := 1, nextMessageId := 3 }

lemma and_true_left {a b : Bool} (h : (a && b) = true) : a = true := by
  cases a <;> simp_all

lemma and_true_right {a b : Bool} (h : (a && b) = true) : b = true := by
  cases a <;> simp_all

lemma keyLtB_trans {a b c : Nat × Nat} (h1 : keyLtB a b = true) (h2 : keyLtB b c = true) :
    keyLtB a c = true := by
  simp only [keyLtB, Bool.or_eq_true, Bool.and_eq_true, decide_eq_true_eq] at *
  omega

lemma keyLtB_irrefl (a : Nat × Nat) : keyLtB a a = false := by
  rw [Bool.eq_false_iff]
  intro h
  simp only [keyLtB, Bool.or_eq_true, Bool.and_eq_true, decide_eq_true_eq] at h
  omega

lemma keyLtB_asymm {a b : Nat × Nat} (h : keyLtB a b = true) : keyLtB b a = false := by
  rw [Bool.eq_false_iff]
  intro h2
  simp only [keyLtB, Bool.or_eq_true, Bool.and_eq_true, decide_eq_true_eq] at h h2
  omega

lemma sortedDescB_tail {x : Message} {xs : List Message} (h : sortedDescB (x :: xs) = true) :
    sortedDescB xs = true := by
  cases xs with
  | nil => rfl
  | cons y ys => exact and_true_right h

lemma sortedDescB_head_lt (x : Message) (xs : List Message)
    (hs : sortedDescB (x :: xs) = true) :
    ∀ y ∈ xs, keyLtB (msgKey y) (msgKey x) = true := by
  induction xs generalizing x with
  | nil => intro y hy; simp at hy
  | cons z zs ih =>
    intro y hy
    have h1 : keyLtB (msgKey z) (msgKey x) = true := and_true_left hs
    have h2 : sortedDescB (z :: zs) = true := and_true_right hs
    rcases List.mem_cons.mp hy with rfl | hmem
    · exact h1
    · exact keyLtB_trans (ih z h2 y hmem) h1

lemma sortedDescB_take (n : Nat) (l : List Message) (h : sortedDescB l = true) :
    sortedDescB (l.take n) = true := by
  induction l generalizing n with
  | nil => simp [sortedDescB]
  | cons x xs ih =>
    cases n with
    | zero => simp [sortedDescB]
    | succ n' =>
      rw [List.take_succ_cons]
      cases xs with
      | nil => simp [sortedDescB]
      | cons y ys =>
        cases n' with
        | zero => simp [sortedDescB]
        | succ n2 =>
          rw [List.take_succ_cons]
          have h1 : keyLtB (msgKey y) (msgKey x) = true := and_true_left h
          have h2 : sortedDescB ((y :: ys).take (n2 + 1)) = true :=
            ih (n2 + 1) (sortedDescB_tail h)
          rw [List.take_succ_cons] at h2
          show (keyLtB (msgKey y) (msgKey x) && sortedDescB (y :: ys.take n2)) = true
          rw [h1, Bool.true_and]
          exact h2

lemma sortDesc_eq_of_sorted (l : List Message) (h : sortedDescB l = true) :
    sortDesc l = l := by
  induction l with
  | nil => rfl
  | cons x xs ih =>
    cases xs with
    | nil => rfl
    | cons y ys =>
      have h1 : keyLtB (msgKey y) (msgKey x) = true := and_true_left h
      have hx : keyLtB (msgKey x) (msgKey y) = false := keyLtB_asymm h1
      show insertDesc x (sortDesc (y :: ys)) = x :: y :: ys
      rw [ih (sortedDescB_tail h)]
      show insertDesc x (y :: ys) = x :: y :: ys
      simp [insertDesc, hx]

lemma take_append_drop_take {α : Type} (l : List α) (m k : Nat) :
    l.take m ++ (l.drop m).take k = l.take (m + k) := by
  induction l generalizing m with
  | nil => simp
  | cons x xs ih =>
    cases m with
    | zero => simp
    | succ m' =>
      have harith : m' + 1 + k = m' + k + 1 := by omega
      rw [harith, List.take_succ_cons, List.take_succ_cons, List.drop_succ_cons,
        List.cons_append, ih]

lemma filter_keyLt_getLast : ∀ (l : List Message) (n : Nat) (lastM : Message),
    sortedDescB l = true → (l.take n).getLast? = some lastM →
    l.filter (fun m => keyLtB (msgKey m) (msgKey lastM)) = l.drop n := by
  intro l
  induction l with
  | nil => intro n lastM hs hlast; simp at hlast
  | cons x xs ih =>
    intro n lastM hs hlast
    cases n with
    | zero => simp at hlast
    | succ n' =>
      rw [List.take_succ_cons] at hlast
      by_cases hxe : xs.take n' = []
      · rw [hxe] at hlast
        simp only [List.getLast?_singleton, Option.some.injEq] at hlast
        subst hlast
        rcases List.take_eq_nil_iff.mp hxe with h0 | hnil
        · subst h0
          rw [List.drop_succ_cons, List.drop_zero,
            List.filter_cons_of_neg (by simp [keyLtB_irrefl])]
          exact List.filter_eq_self.mpr (fun y hy => sortedDescB_head_lt x xs hs y hy)
        · subst hnil
          rw [List.filter_cons_of_neg (by simp [keyLtB_irrefl])]
          simp
      · obtain ⟨y, ys, hys⟩ := List.exists_cons_of_ne_nil hxe
        rw [hys, List.getLast?_cons_cons, ← hys] at hlast
        have hmem : lastM ∈ xs := List.take_subset n' xs (List.mem_of_getLast?_eq_some hlast)
        have hlt : keyLtB (msgKey lastM) (msgKey x) = true :=
          sortedDescB_head_lt x xs hs lastM hmem
        rw [List.filter_cons_of_neg (by simp [keyLtB_asymm hlt]),
          ih n' lastM (sortedDescB_tail hs) hlast, List.drop_succ_cons]

lemma any_filter_not {α : Type} (p : α → Bool) (l : List α) :
    (l.filter (fun a => !(p a))).any p = false := by
  induction l with
  | nil => rfl
  | cons x xs ih =>
    by_cases hx : p x = true
    · rw [List.filter_cons_of_neg (by simp [hx])]
      exact ih
    · rw [Bool.not_eq_true] at hx
      rw [List.filter_cons_of_pos (by simp [hx])]
      simp [List.any_cons, hx, ih]

lemma createConversation_ok {k : ConvKind} {nm : Option String} {ids : List String}
    {now : Nat} {s : ChatState} {c : Conversation} {s1 : ChatState}
    (h : createConversation k nm ids now s = Except.ok (c, s1)) :
    c.id = s.nextConversationId ∧
    s1.conversations = c :: s.conversations ∧
    s1.participants =
      ids.map (fun u => participantRow s.nextConversationId u now) ++ s.participants ∧
    s1.messages = s.messages ∧ s1.nextMessageId = s.nextMessageId ∧ ids ≠ [] := by
  unfold createConversation at h
  split at h
  · split at h
    · exact absurd h (by simp)
    · split at h
      · exact absurd h (by simp)
      · simp only [Except.ok.injEq, Prod.mk.injEq] at h
        obtain ⟨hc, hs⟩ := h
        subst hc
        subst hs
        refine ⟨rfl, rfl, rfl, rfl, rfl, ?_⟩
        intro hnil
        subst hnil
        simp_all
  · split at h
    · exact absurd h (by simp)
    · split at h
      · exact absurd h (by simp)
      · simp only [Except.ok.injEq, Prod.mk.injEq] at h
        obtain ⟨hc, hs⟩ := h
        subst hc
        subst hs
        refine ⟨rfl, rfl, rfl, rfl, rfl, ?_⟩
        intro hnil
        subst hnil
        simp_all

lemma addParticipant_ok {cid : Nat} {uid : String} {now : Nat} {s : ChatState}
    {p : Participant} {s1 : ChatState}
    (h : addParticipant cid uid now s = Except.ok (p, s1)) :
    p = participantRow cid uid now ∧
    s1 = { s with participants := participantRow cid uid now :: s.participants } := by
  unfold addParticipant at h
  split at h
  · exact absurd h (by simp)
  · split at h
    · exact absurd h (by simp)
    · split at h
      · exact absurd h (by simp)
      · simp only [Except.ok.injEq, Prod.mk.injEq] at h
        exact ⟨h.1.symm, h.2.symm⟩

lemma markParticipantLeft_ok {cid : Nat} {uid : String} {now : Nat} {s : ChatState}
    {p : Participant} {s1 : ChatState}
    (h : markParticipantLeft cid uid now s = Except.ok (p, s1)) :
    s1 = { s with participants := s.participants.map (leaveUpdate cid uid now) } := by
  unfold markParticipantLeft at h
  split at h
  · exact absurd h (by simp)
  · simp only [Except.ok.injEq, Prod.mk.injEq] at h
    exact h.2.symm

lemma sendMessage_ok {cid : Nat} {uid text : String} {now : Nat} {s : ChatState}
    {m : Message} {s1 : ChatState}
    (h : sendMessage cid uid text now s = Except.ok (m, s1)) :
    s1.participants = s.participants ∧ s1.conversations = s.conversations := by
  unfold sendMessage at h
  split at h
  · split at h
    · exact absurd h (by simp)
    · simp only [insertMessage, Except.ok.injEq, Prod.mk.injEq] at h
      obtain ⟨hm, hs⟩ := h
      subst hs
      exact ⟨rfl, rfl⟩
  · exact absurd h (by simp)

lemma createSystemMessage_ok {cid : Nat} {ev : SystemEvent} {text : String} {now : Nat}
    {s : ChatState} {m : Message} {s1 : ChatState}
    (h : createSystemMessage cid ev text now s = Except.ok (m, s1)) :
    s1.participants = s.participants ∧ s1.conversations = s.conversations := by
  simp only [createSystemMessage, insertMessage, Except.ok.injEq, Prod.mk.injEq] at h
  obtain ⟨hm, hs⟩ := h
  subst hs
  exact ⟨rfl, rfl⟩

lemma addReaction_ok {mid : Nat} {uid emoji : String} {now : Nat} {s : ChatState}
    {r : Reaction} {s1 : ChatState}
    (h : addReaction mid uid emoji now s = Except.ok (r, s1)) :
    s1.participants = s.participants ∧ s1.conversations = s.conversations := by
  unfold addReaction at h
  split at h
  · split at h
    · exact absurd h (by simp)
    · simp only [Except.ok.injEq, Prod.mk.injEq] at h
      obtain ⟨hr, hs⟩ := h
      subst hs
      exact ⟨rfl, rfl⟩
  · exact absurd h (by simp)

lemma removeReaction_ok {mid : Nat} {emoji uid : String} {s : ChatState}
    {r : Reaction} {s1 : ChatState}
    (h : removeReaction mid emoji uid s = Except.ok (r, s1)) :
    s1.participants = s.participants ∧ s1.conversations = s.conversations := by
  unfold removeReaction at h
  split at h
  · exact absurd h (by simp)
  · simp only [Except.ok.injEq, Prod.mk.injEq] at h
    obtain ⟨hr, hs⟩ := h
    subst hs
    exact ⟨rfl, rfl⟩

lemma addBookmark_ok {mid : Nat} {uid : String} {now : Nat} {s : ChatState}
    {b : Bookmark} {s1 : ChatState}
    (h : addBookmark mid uid now s = Except.ok (b, s1)) :
    s1.participants = s.participants ∧ s1.conversations = s.conversations := by
  unfold addBookmark at h
  split at h
  · split at h
    · exact absurd h (by simp)
    · simp only [Except.ok.injEq, Prod.mk.injEq] at h
      obtain ⟨hb, hs⟩ := h
      subst hs
      exact ⟨rfl, rfl⟩
  · exact absurd h (by simp)

lemma removeBookmark_ok {mid : Nat} {uid : String} {s : ChatState}
    {b : Bookmark} {s1 : ChatState}
    (h : removeBookmark mid uid s = Except.ok (b, s1)) :
    s1.participants = s.participants ∧ s1.conversations = s.conversations := by
  unfold removeBookmark at h
  split at h
  · exact absurd h (by simp)
  · simp only [Except.ok.injEq, Prod.mk.injEq] at h
    obtain ⟨hb, hs⟩ := h
    subst hs
    exact ⟨rfl, rfl⟩

lemma find?_active_after_leave (cid : Nat) (uid : String) (t : Nat) (l : List Participant) :
    (l.map (leaveUpdate cid uid t)).find? (activeRowMatches cid uid) = none := by
  rw [List.find?_eq_none]
  intro x hx
  rw [List.mem_map] at hx
  obtain ⟨y, hy, rfl⟩ := hx
  unfold leaveUpdate
  by_cases hm : activeRowMatches cid uid y = true
  · rw [if_pos hm]
    simp [activeRowMatches]
  · rw [if_neg hm]
    exact hm

lemma activeParticipants_after_create (cc : Conversation) (ids : List String) (now : Nat)
    (s : ChatState)
    (hWF : s.participants.all (fun p => decide (p.conversationId < s.nextConversationId)) = true) :
    (activeParticipants s.nextConversationId
      { s with
        conversations := cc :: s.conversations,
        participants :=
          ids.map (fun u => participantRow s.nextConversationId u now) ++ s.participants,
        nextConversationId := s.nextConversationId + 1 }).length = ids.length := by
  unfold activeParticipants
  show ((ids.map (fun u => participantRow s.nextConversationId u now) ++ s.participants).filter
      (fun p => p.conversationId == s.nextConversationId && p.leftAt.isNone)).length = ids.length
  rw [List.filter_append]
  have h1 : (ids.map (fun u => participantRow s.nextConversationId u now)).filter
      (fun p => p.conversationId == s.nextConversationId && p.leftAt.isNone) =
      ids.map (fun u => participantRow s.nextConversationId u now) := by
    apply List.filter_eq_self.mpr
    intro a ha
    rw [List.mem_map] at ha
    obtain ⟨u, hu, rfl⟩ := ha
    simp [participantRow]
  have h2 : s.participants.filter
      (fun p => p.conversationId == s.nextConversationId && p.leftAt.isNone) = [] := by
    apply List.filter_eq_nil_iff.mpr
    intro q hq
    have hlt : q.conversationId < s.nextConversationId :=
      of_decide_eq_true (List.all_eq_true.mp hWF q hq)
    intro hcontra
    have h3 := and_true_left hcontra
    rw [Nat.beq_eq_true_eq] at h3
    omega
  rw [h1, h2]
  simp

/-- C3: creating a Direct conversation fails InvalidArgument when the
participant set does not have exactly 2 elements or when a name is supplied;
every success has exactly 2 active participants and no name. -/
theorem createConversation_direct_spec (name : Option String) (ids : List String)
    (now : Nat) (s : ChatState)
    (hWF : s.participants.all (fun p => decide (p.conversationId < s.nextConversationId)) = true) :
    (ids.length ≠ 2 →
      createConversation ConvKind.direct name ids now s =
        Except.error ChatError.invalidArgument) ∧
    (name.isSome = true →
      createConversation ConvKind.direct name ids now s =
        Except.error ChatError.invalidArgument) ∧
    (∀ c s1, createConversation ConvKind.direct name ids now s = Except.ok (c, s1) →
      c.name = none ∧ (activeParticipants c.id s1).length = 2) := by
  refine ⟨?_, ?_, ?_⟩
  · intro hlen
    simp only [createConversation]
    rw [if_pos hlen]
  · intro hname
    by_cases hlen : ids.length ≠ 2
    · simp only [createConversation]
      rw [if_pos hlen]
    · simp only [createConversation]
      rw [if_neg hlen, if_pos hname]
  · intro c s1 hok
    simp only [createConversation] at hok
    split at hok
    · exact absurd hok (by simp)
    · split at hok
      · exact absurd hok (by simp)
      · rename_i hlen hname
        have hnone : name = none := by
          cases name with
          | none => rfl
          | some a => simp at hname
        subst hnone
        simp only [Except.ok.injEq, Prod.mk.injEq] at hok
        obtain ⟨hc, hs⟩ := hok
        subst hc
        subst hs
        have hlen2 : ids.length = 2 := by omega
        exact ⟨rfl, (activeParticipants_after_create _ ids now s hWF).trans hlen2⟩

/-- C4: listing messages succeeds for every caller with a Participant row
(active or left) and fails Forbidden for every caller with none; sending
fails Forbidden exactly when the sender is not an active participant, so a
user who left can still list but cannot send. -/
theorem listMessages_send_authorization (cid : Nat) (u : String) (b : Option (Nat × Nat))
    (lim : Option Int) (text : String) (now : Nat) (s : ChatState) :
    (hasParticipantRow cid u s = true →
      ∃ page, listMessages cid u b lim s = Except.ok page) ∧
    (hasParticipantRow cid u s = false →
      listMessages cid u b lim s = Except.error ChatError.forbidden) ∧
    (sendMessage cid u text now s = Except.error ChatError.forbidden ↔
      isActiveParticipant cid u s = false) := by
  refine ⟨?_, ?_, ?_, ?_⟩
  · intro hauth
    unfold listMessages
    rw [if_pos hauth]
    exact ⟨_, rfl⟩
  · intro hauth
    unfold listMessages
    rw [if_neg (by simp [hauth])]
  · intro hsend
    by_contra hact
    rw [Bool.not_eq_false] at hact
    unfold sendMessage at hsend
    rw [if_pos hact] at hsend
    split at hsend
    · exact absurd hsend (by simp)
    · exact absurd hsend (by simp)
  · intro hact
    unfold sendMessage
    rw [if_neg (by simp [hact])]

lemma addReaction_eq_ok (mid : Nat) (uid emoji : String) (t : Nat) (s : ChatState)
    (hmsg : messageExists mid s = true)
    (hnew : reactionExists mid uid emoji s = false) :
    addReaction mid uid emoji t s =
      Except.ok (⟨mid, uid, emoji, t⟩,
        { s with reactions := ⟨mid, uid, emoji, t⟩ :: s.reactions }) := by
  unfold addReaction
  rw [if_pos hmsg, if_neg (by simp [hnew])]

lemma addReaction_conflict (mid : Nat) (uid emoji : String) (t : Nat) (s : ChatState)
    (hmsg : messageExists mid s = true)
    (hdup : reactionExists mid uid emoji s = true) :
    addReaction mid uid emoji t s = Except.error ChatError.conflict := by
  unfold addReaction
  rw [if_pos hmsg, if_pos hdup]

lemma removeReaction_eq_ok (mid : Nat) (uid emoji : String) (s : ChatState) (r : Reaction)
    (hfind : s.reactions.find? (reactionMatches mid uid emoji) = some r) :
    removeReaction mid emoji uid s =
      Except.ok (r,
        { s with reactions := s.reactions.filter (fun q => !(reactionMatches mid uid emoji q)) }) := by
  unfold removeReaction
  rw [hfind]

/-- C5: a first reaction add succeeds and returns the Reaction, a duplicate
add of the same (message, user, emoji) fails Conflict, and after removing
the reaction the same triple can be added again. -/
theorem reaction_add_conflict_roundtrip (mid : Nat) (uid emoji : String) (t1 t2 t3 : Nat)
    (s : ChatState) (hmsg : messageExists mid s = true)
    (hnew : reactionExists mid uid emoji s = false) :
    addReaction mid uid emoji t1 s =
      Except.ok (⟨mid, uid, emoji, t1⟩,
        { s with reactions := ⟨mid, uid, emoji, t1⟩ :: s.reactions }) ∧
    addReaction mid uid emoji t2 { s with reactions := ⟨mid, uid, emoji, t1⟩ :: s.reactions } =
      Except.error ChatError.conflict ∧
    removeReaction mid emoji uid { s with reactions := ⟨mid, uid, emoji, t1⟩ :: s.reactions } =
      Except.ok (⟨mid, uid, emoji, t1⟩,
        { s with reactions := (⟨mid, uid, emoji, t1⟩ :: s.reactions).filter
                                (fun q => !(reactionMatches mid uid emoji q)) }) ∧
    addReaction mid uid emoji t3
      { s with reactions := (⟨mid, uid, emoji, t1⟩ :: s.reactions).filter
                              (fun q => !(reactionMatches mid uid emoji q)) } =
      Except.ok (⟨mid, uid, emoji, t3⟩,
        { s with reactions := ⟨mid, uid, emoji, t3⟩ ::
                                (⟨mid, uid, emoji, t1⟩ :: s.reactions).filter
                                  (fun q => !(reactionMatches mid uid emoji q)) }) := by
  have hmsg1 :
      messageExists mid
        ({ s with reactions := ⟨mid, uid, emoji, t1⟩ :: s.reactions } : ChatState) = true := hmsg
  have hdup1 :
      reactionExists mid uid emoji
        ({ s with reactions := ⟨mid, uid, emoji, t1⟩ :: s.reactions } : ChatState) = true := by
    simp [reactionExists, List.any_cons, reactionMatches]
  have hfind1 :
      ({ s with reactions := ⟨mid, uid, emoji, t1⟩ :: s.reactions } : ChatState).reactions.find?
        (reactionMatches mid uid emoji) = some ⟨mid, uid, emoji, t1⟩ :=
    List.find?_cons_of_pos _ (by simp [reactionMatches])
  have hmsg2 :
      messageExists mid
        ({ s with reactions := (⟨mid, uid, emoji, t1⟩ :: s.reactions).filter
                                 (fun q => !(reactionMatches mid uid emoji q)) } :
          ChatState) = true := hmsg
  have hnew2 :
      reactionExists mid uid emoji
        ({ s with reactions := (⟨mid, uid, emoji, t1⟩ :: s.reactions).filter
                                 (fun q => !(reactionMatches mid uid emoji q)) } :
          ChatState) = false :=
    any_filter_not (reactionMatches mid uid emoji) (⟨mid, uid, emoji, t1⟩ :: s.reactions)
  exact ⟨addReaction_eq_ok mid uid emoji t1 s hmsg hnew,
    addReaction_conflict mid uid emoji t2 _ hmsg1 hdup1,
    removeReaction_eq_ok mid uid emoji _ _ hfind1,
    addReaction_eq_ok mid uid emoji t3 _ hmsg2 hnew2⟩

/-- C6: with an active row present, a first markLeft succeeds and sets
leftAt to the current time, and an immediately following second markLeft on
the same pair fails NotFound. -/
theorem markParticipantLeft_twice (cid : Nat) (uid : String) (t1 t2 : Nat) (s : ChatState)
    (p0 : Participant)
    (hfind : s.participants.find? (activeRowMatches cid uid) = some p0) :
    markParticipantLeft cid uid t1 s =
      Except.ok ({ p0 with leftAt := some t1 },
        { s with participants := s.participants.map (leaveUpdate cid uid t1) }) ∧
    markParticipantLeft cid uid t2
      { s with participants := s.participants.map (leaveUpdate cid uid t1) } =
      Except.error ChatError.notFound := by
  constructor
  · unfold markParticipantLeft
    rw [hfind]
  · unfold markParticipantLeft
    rw [show ({ s with participants := s.participants.map (leaveUpdate cid uid t1) } :
        ChatState).participants.find? (activeRowMatches cid uid) = none from
      find?_active_after_leave cid uid t1 s.participants]

/-- C8: a non-numeric or out-of-range limit parameter falls back to the
default limit instead of failing the message-listing request, and a limit
above the configured maximum is capped to that maximum. -/
theorem limit_fallback_and_cap (str : String) :
    (str ≠ "" → jsNumber str = none →
      resolveLimit (routeLimit (some str)) = DEFAULT_MESSAGE_LIMIT) ∧
    (∀ v : Int, jsNumber str = some v → v < 1 →
      resolveLimit (routeLimit (some str)) = DEFAULT_MESSAGE_LIMIT) ∧
    (∀ v : Int, jsNumber str = some v → (MAX_MESSAGE_LIMIT : Int) < v →
      resolveLimit (routeLimit (some str)) = MAX_MESSAGE_LIMIT) ∧
    (∀ (cid : Nat) (uq : String) (b : Option (Nat × Nat)) (s : ChatState),
      hasParticipantRow cid uq s = true →
      ∃ msgs, getMessagesHandler cid (some uq) b (some str) s = RouteOutcome.success 200 msgs) := by
  refine ⟨?_, ?_, ?_, ?_⟩
  · intro hne hnan
    simp [routeLimit, hne, hnan, resolveLimit]
  · intro v hv hlt
    by_cases hse : str = ""
    · simp [routeLimit, hse, resolveLimit]
    · by_cases hv0 : v = 0
      · simp [routeLimit, hse, hv, hv0, resolveLimit]
      · simp [routeLimit, hse, hv, hv0, resolveLimit, hlt]
  · intro v hv hgt
    have hse : str ≠ "" := by
      intro he
      subst he
      simp [jsNumber] at hv
      subst hv
      simp [MAX_MESSAGE_LIMIT] at hgt
    have hv0 : ¬ v = 0 := by
      simp [MAX_MESSAGE_LIMIT] at hgt
      omega
    have hv1 : ¬ v < 1 := by
      simp [MAX_MESSAGE_LIMIT] at hgt
      omega
    have hcap : MAX_MESSAGE_LIMIT ≤ v.toNat := by
      simp only [MAX_MESSAGE_LIMIT] at hgt ⊢
      omega
    simp [routeLimit, hse, hv, hv0, resolveLimit, hv1]
    exact hcap
  · intro cid uq b s hauth
    have hauth2 : hasParticipantRow cid ((some uq).getD "") s = true := hauth
    unfold getMessagesHandler listMessages
    rw [if_pos hauth2]
    exact ⟨_, rfl⟩

/-- C9: a DELETE reaction or DELETE bookmark request whose userId query
parameter is absent or empty returns 400 with message userId is required,
and leaves the store untouched (the usecase is never invoked). -/
theorem delete_requires_userId (mid : Nat) (emoji : String) (uq : Option String)
    (s : ChatState) (h : uq = none ∨ uq = some "") :
    deleteReactionsHandler mid emoji uq s = (RouteOutcome.failure 400 "userId is required", s) ∧
    deleteBookmarksHandler mid uq s = (RouteOutcome.failure 400 "userId is required", s) := by
  have hf : jsFalsy uq = true := by
    rcases h with rfl | rfl <;> simp [jsFalsy]
  constructor
  · unfold deleteReactionsHandler
    rw [if_pos hf]
  · unfold deleteBookmarksHandler
    rw [if_pos hf]

/-- C1 (amended): when the participant is persisted and the subsequent
system-message emission fails, the membership change is not rolled back (the
final state is the post-insert state and the Participant row is in it), but
the failure is not logged or swallowed: it propagates, and the caller sees
the emission failure instead of the created Participant. -/
theorem postParticipants_emitFailure_keeps_membership (cid : Nat) (uid : String) (now : Nat)
    (s s1 : ChatState) (p : Participant) (e : ChatError)
    (emit : ChatState → Except ChatError (Message × ChatState))
    (hadd : addParticipant cid uid now s = Except.ok (p, s1))
    (hemit : emit s1 = Except.error e) :
    postParticipantsHandler cid uid now emit s =
      (RouteOutcome.failure e.httpStatus e.httpMessage, s1) ∧
    p ∈ s1.participants := by
  constructor
  · unfold postParticipantsHandler
    rw [hadd]
    simp [hemit, handleError]
  · obtain ⟨hp, hs⟩ := addParticipant_ok hadd
    subst hp
    subst hs
    exact List.mem_cons_self _ _

/-- C10: every successful add-participant request emits exactly one system
message into the conversation, with senderUserId null, systemEvent join, and
text equal to the added user id followed by the literal string containing a
space and the word joined. -/
theorem postParticipants_emits_join_message (cid : Nat) (uid : String) (now : Nat)
    (s s2 : ChatState) (p : Participant)
    (h : postParticipantsRoute cid uid now s = (RouteOutcome.success 201 p, s2)) :
    s2.messages =
      { id := s.nextMessageId, conversationId := cid, senderUserId := none,
        text := uid ++ " joined", systemEvent := some SystemEvent.join,
        createdAt := now } :: s.messages := by
  unfold postParticipantsRoute postParticipantsHandler at h
  cases hadd : addParticipant cid uid now s with
  | error e =>
    rw [hadd] at h
    simp [handleError] at h
  | ok v =>
    obtain ⟨p1, s1⟩ := v
    rw [hadd] at h
    simp only [joinEmit, createSystemMessage, insertMessage] at h
    rw [Prod.mk.injEq] at h
    obtain ⟨hp, hs⟩ := h
    subst hs
    obtain ⟨hp1, hs1⟩ := addParticipant_ok hadd
    subst hs1
    rfl

/-- C1 is false as the spec states it: at this concrete input the
participant insert succeeds, the system-message emission fails with a
storage failure, and the caller-visible result is the emission failure —
not the successfully created Participant — while the membership change is
kept.  Nothing is logged. -/
theorem postParticipants_claim_false :
    (postParticipantsHandler 0 "d" 4 (fun _ => Except.error ChatError.unavailable)
        demoState).1 = RouteOutcome.failure 503 "unavailable" ∧
    (postParticipantsHandler 0 "d" 4 (fun _ => Except.error ChatError.unavailable)
        demoState).2.participants = participantRow 0 "d" 4 :: demoState.participants ∧
    (postParticipantsHandler 0 "d" 4 (fun _ => Except.error ChatError.unavailable)
        demoState).1 ≠ RouteOutcome.success 201 (participantRow 0 "d" 4) := by
  decide

/-- C2: with a cursorless request the page is the newest-first prefix of the
conversation history capped at the resolved limit, still ordered by
(createdAt desc, id desc); re-issuing the key of the last returned item
yields exactly the next strictly older block — no overlap and no gap. -/
theorem listMessages_pagination (s : ChatState) (cid : Nat) (u : String) (lim : Option Int)
    (hauth : hasParticipantRow cid u s = true)
    (hsorted : sortedDescB (s.messages.filter (fun m => m.conversationId == cid)) = true) :
    listMessages cid u none lim s =
      Except.ok ((s.messages.filter (fun m => m.conversationId == cid)).take
        (resolveLimit lim)) ∧
    sortedDescB ((s.messages.filter (fun m => m.conversationId == cid)).take
      (resolveLimit lim)) = true ∧
    (∀ lastM,
      ((s.messages.filter (fun m => m.conversationId == cid)).take
        (resolveLimit lim)).getLast? = some lastM →
      listMessages cid u (some (msgKey lastM)) lim s =
        Except.ok (((s.messages.filter (fun m => m.conversationId == cid)).drop
          (resolveLimit lim)).take (resolveLimit lim)) ∧
      (s.messages.filter (fun m => m.conversationId == cid)).take (resolveLimit lim) ++
        ((s.messages.filter (fun m => m.conversationId == cid)).drop
          (resolveLimit lim)).take (resolveLimit lim) =
        (s.messages.filter (fun m => m.conversationId == cid)).take
          (resolveLimit lim + resolveLimit lim) ∧
      ∀ m ∈ ((s.messages.filter (fun m => m.conversationId == cid)).drop
          (resolveLimit lim)).take (resolveLimit lim),
        keyLtB (msgKey m) (msgKey lastM) = true) := by
  have hfix : sortDesc (s.messages.filter (fun m => m.conversationId == cid)) =
      s.messages.filter (fun m => m.conversationId == cid) :=
    sortDesc_eq_of_sorted _ hsorted
  refine ⟨?_, ?_, ?_⟩
  · unfold listMessages
    rw [if_pos hauth, hfix]
  · exact sortedDescB_take _ _ hsorted
  · intro lastM hlast
    have hfilter := filter_keyLt_getLast _ (resolveLimit lim) lastM hsorted hlast
    refine ⟨?_, ?_, ?_⟩
    · unfold listMessages
      rw [if_pos hauth, hfix]
      exact congrArg (fun l2 => Except.ok (List.take (resolveLimit lim) l2)) hfilter
    · exact take_append_drop_take _ _ _
    · intro m hm
      have hmem : m ∈ (s.messages.filter (fun m2 => m2.conversationId == cid)).drop
          (resolveLimit lim) := List.take_subset _ _ hm
      rw [← hfilter] at hmem
      exact (List.mem_filter.mp hmem).2

lemma step_preserves {s s1 : ChatState} (h : Step s s1)
    (hinv : ConversationsHaveParticipants s) : ConversationsHaveParticipants s1 := by
  cases h with
  | @createConv k nm ids now _ c _ hok =>
    obtain ⟨hid, hconvs, hparts, hmsgs, hnext, hne⟩ := createConversation_ok hok
    intro c2 hc2
    rw [hconvs] at hc2
    rcases List.mem_cons.mp hc2 with rfl | hmem
    · obtain ⟨u, hu⟩ := List.exists_mem_of_ne_nil _ hne
      refine ⟨participantRow s.nextConversationId u now, ?_, ?_⟩
      · rw [hparts]
        exact List.mem_append_left _ (List.mem_map_of_mem _ hu)
      · simp [participantRow, hid]
    · obtain ⟨p, hp, hpid⟩ := hinv c2 hmem
      refine ⟨p, ?_, hpid⟩
      rw [hparts]
      exact List.mem_append_right _ hp
  | addPart hok =>
    obtain ⟨hp, hs1⟩ := addParticipant_ok hok
    subst hs1
    intro c2 hc2
    obtain ⟨p2, hp2, hpid⟩ := hinv c2 hc2
    exact ⟨p2, List.mem_cons_of_mem _ hp2, hpid⟩
  | leave hok =>
    have hs1 := markParticipantLeft_ok hok
    subst hs1
    intro c2 hc2
    obtain ⟨p2, hp2, hpid⟩ := hinv c2 hc2
    refine ⟨leaveUpdate _ _ _ p2, List.mem_map_of_mem _ hp2, ?_⟩
    unfold leaveUpdate
    split
    · simpa using hpid
    · exact hpid
  | send hok =>
    obtain ⟨hparts, hconvs⟩ := sendMessage_ok hok
    intro c2 hc2
    rw [hconvs] at hc2
    obtain ⟨p2, hp2, hpid⟩ := hinv c2 hc2
    refine ⟨p2, ?_, hpid⟩
    rw [hparts]
    exact hp2
  | emitSys hok =>
    obtain ⟨hparts, hconvs⟩ := createSystemMessage_ok hok
    intro c2 hc2
    rw [hconvs] at hc2
    obtain ⟨p2, hp2, hpid⟩ := hinv c2 hc2
    refine ⟨p2, ?_, hpid⟩
    rw [hparts]
    exact hp2
  | react hok =>
    obtain ⟨hparts, hconvs⟩ := addReaction_ok hok
    intro c2 hc2
    rw [hconvs] at hc2
    obtain ⟨p2, hp2, hpid⟩ := hinv c2 hc2
    refine ⟨p2, ?_, hpid⟩
    rw [hparts]
    exact hp2
  | unreact hok =>
    obtain ⟨hparts, hconvs⟩ := removeReaction_ok hok
    intro c2 hc2
    rw [hconvs] at hc2
    obtain ⟨p2, hp2, hpid⟩ := hinv c2 hc2
    refine ⟨p2, ?_, hpid⟩
    rw [hparts]
    exact hp2
  | mark hok =>
    obtain ⟨hparts, hconvs⟩ := addBookmark_ok hok
    intro c2 hc2
    rw [hconvs] at hc2
    obtain ⟨p2, hp2, hpid⟩ := hinv c2 hc2
    refine ⟨p2, ?_, hpid⟩
    rw [hparts]
    exact hp2
  | unmark hok =>
    obtain ⟨hparts, hconvs⟩ := removeBookmark_ok hok
    intro c2 hc2
    rw [hconvs] at hc2
    obtain ⟨p2, hp2, hpid⟩ := hinv c2 hc2
    refine ⟨p2, ?_, hpid⟩
    rw [hparts]
    exact hp2

/-- C7: conversation creation adds the Conversation and one active
Participant row per supplied user id in one atomic transition, and in every
state reachable from the empty store no conversation exists with zero
Participant rows. -/
theorem conversation_never_without_participants :
    (∀ s : ChatState, Relation.ReflTransGen Step initialState s →
      ConversationsHaveParticipants s) ∧
    (∀ (k : ConvKind) (nm : Option String) (ids : List String) (now : Nat)
        (s : ChatState) (c : Conversation) (s1 : ChatState),
      createConversation k nm ids now s = Except.ok (c, s1) →
      c ∈ s1.conversations ∧ Step s s1 ∧
      ∀ u ∈ ids, ∃ p ∈ s1.participants,
        p.conversationId = c.id ∧ p.userId = u ∧ p.leftAt = none) := by
  constructor
  · intro s hreach
    induction hreach with
    | refl =>
      intro c hc
      simp [initialState] at hc
    | tail _ hstep ih => exact step_preserves hstep ih
  · intro k nm ids now s c s1 hok
    obtain ⟨hid, hconvs, hparts, hmsgs, hnext, hne⟩ := createConversation_ok hok
    refine ⟨?_, Step.createConv hok, ?_⟩
    · rw [hconvs]
      exact List.mem_cons_self _ _
    · intro u hu
      refine ⟨participantRow s.nextConversationId u now, ?_, ?_, rfl, rfl⟩
      · rw [hparts]
        exact List.mem_append_left _ (List.mem_map_of_mem _ hu)
      · simp [participantRow, hid]

theorem createConversation_direct_witness :
    createConversation ConvKind.direct none ["a"] 0 initialState =
      Except.error ChatError.invalidArgument ∧
    createConversation ConvKind.direct none ["a", "b"] 7 initialState =
      Except.ok
        ({ id := 0, kind := ConvKind.direct, name := none, createdAt := 7 },
         { conversations := [{ id := 0, kind := ConvKind.direct, name := none, createdAt := 7 }],
           participants := [participantRow 0 "a" 7, participantRow 0 "b" 7],
           messages := [], reactions := [], bookmarks := [],
           nextConversationId := 1, nextMessageId := 0 }) ∧
    (activeParticipants 0
      { conversations := [{ id := 0, kind := ConvKind.direct, name := none, createdAt := 7 }],
        participants := [participantRow 0 "a" 7, participantRow 0 "b" 7],
        messages := [], reactions := [], bookmarks := [],
        nextConversationId := 1, nextMessageId := 0 }).length = 2 := by
  have h := createConversation_direct_spec none ["a"] 0 initialState (by decide)
  have h2 := createConversation_direct_spec none ["a", "b"] 7 initialState (by decide)
  have hok : createConversation ConvKind.direct none ["a", "b"] 7 initialState =
      Except.ok
        ({ id := 0, kind := ConvKind.direct, name := none, createdAt := 7 },
         { conversations := [{ id := 0, kind := ConvKind.direct, name := none, createdAt := 7 }],
           participants := [participantRow 0 "a" 7, participantRow 0 "b" 7],
           messages := [], reactions := [], bookmarks := [],
           nextConversationId := 1, nextMessageId := 0 }) := by decide
  exact ⟨h.1 (by decide), hok, (h2.2.2 _ _ hok).2⟩

theorem listMessages_send_authorization_witness :
    listMessages 0 "c" none none demoState =
      Except.ok
        [{ id := 2, conversationId := 0, senderUserId := some "a", text := "m3",
           systemEvent := none, createdAt := 3 },
         { id := 1, conversationId := 0, senderUserId := some "b", text := "m2",
           systemEvent := none, createdAt := 2 },
         { id := 0, conversationId := 0, senderUserId := some "a", text := "m1",
           systemEvent := none, createdAt := 1 }] ∧
    listMessages 0 "z" none none demoState = Except.error ChatError.forbidden ∧
    sendMessage 0 "c" "hi" 9 demoState = Except.error ChatError.forbidden := by
  have h := listMessages_send_authorization 0 "c" none none "hi" 9 demoState
  have h2 := listMessages_send_authorization 0 "z" none none "hi" 9 demoState
  exact ⟨by decide, h2.2.1 (by decide), h.2.2.mpr (by decide)⟩

theorem reaction_roundtrip_witness :
    addReaction 0 "b" "+1" 10 demoState =
      Except.ok (⟨0, "b", "+1", 10⟩, { demoState with reactions := [⟨0, "b", "+1", 10⟩] }) ∧
    addReaction 0 "b" "+1" 11 { demoState with reactions := [⟨0, "b", "+1", 10⟩] } =
      Except.error ChatError.conflict ∧
    removeReaction 0 "+1" "b" { demoState with reactions := [⟨0, "b", "+1", 10⟩] } =
      Except.ok (⟨0, "b", "+1", 10⟩, { demoState with reactions := [] }) ∧
    addReaction 0 "b" "+1" 12 { demoState with reactions := [] } =
      Except.ok (⟨0, "b", "+1", 12⟩, { demoState with reactions := [⟨0, "b", "+1", 12⟩] }) := by
  have h := reaction_add_conflict_roundtrip 0 "b" "+1" 10 11 12 demoState (by decide) (by decide)
  exact ⟨h.1, h.2.1, h.2.2.1, h.2.2.2⟩

theorem markParticipantLeft_twice_witness :
    markParticipantLeft 0 "a" 5 demoState =
      Except.ok
        ({ conversationId := 0, userId := "a", role := Role.member, joinedAt := 0,
           leftAt := some 5 },
         { demoState with participants :=
             [{ conversationId := 0, userId := "a", role := Role.member, joinedAt := 0,
                leftAt := some 5 },
              { conversationId := 0, userId := "b", role := Role.member, joinedAt := 0,
                leftAt := none },
              { conversationId := 0, userId := "c", role := Role.member, joinedAt := 0,
                leftAt := some 3 }] }) ∧
    markParticipantLeft 0 "a" 6
      { demoState with participants :=
          [{ conversationId := 0, userId := "a", role := Role.member, joinedAt := 0,
             leftAt := some 5 },
           { conversationId := 0, userId := "b", role := Role.member, joinedAt := 0,
             leftAt := none },
           { conversationId := 0, userId := "c", role := Role.member, joinedAt := 0,
             leftAt := some 3 }] } = Except.error ChatError.notFound := by
  have h := markParticipantLeft_twice 0 "a" 5 6 demoState
    { conversationId := 0, userId := "a", role := Role.member, joinedAt := 0, leftAt := none }
    (by decide)
  exact ⟨h.1, h.2⟩

theorem limit_fallback_and_cap_witness :
    resolveLimit (routeLimit (some "abc")) = DEFAULT_MESSAGE_LIMIT ∧
    resolveLimit (routeLimit (some "-3")) = DEFAULT_MESSAGE_LIMIT ∧
    resolveLimit (routeLimit (some "1000")) = MAX_MESSAGE_LIMIT ∧
    getMessagesHandler 0 (some "a") none (some "1000") demoState =
      RouteOutcome.success 200
        [{ id := 2, conversationId := 0, senderUserId := some "a", text := "m3",
           systemEvent := none, createdAt := 3 },
         { id := 1, conversationId := 0, senderUserId := some "b", text := "m2",
           systemEvent := none, createdAt := 2 },
         { id := 0, conversationId := 0, senderUserId := some "a", text := "m1",
           systemEvent := none, createdAt := 1 }] := by
  have h := limit_fallback_and_cap "1000"
  have h2 := limit_fallback_and_cap "abc"
  have h3 := limit_fallback_and_cap "-3"
  exact ⟨h2.1 (by decide) (by decide), h3.2.1 (-3) (by decide) (by decide),
    h.2.2.1 1000 (by decide) (by decide), by decide⟩

theorem delete_requires_userId_witness :
    deleteReactionsHandler 0 "+1" none demoState =
      (RouteOutcome.failure 400 "userId is required", demoState) ∧
    deleteBookmarksHandler 0 (some "") demoState =
      (RouteOutcome.failure 400 "userId is required", demoState) := by
  exact ⟨(delete_requires_userId 0 "+1" none demoState (Or.inl rfl)).1,
    (delete_requires_userId 0 "+1" (some "") demoState (Or.inr rfl)).2⟩

theorem postParticipants_emitFailure_witness :
    postParticipantsHandler 0 "d" 4 (fun _ => Except.error ChatError.unavailable) demoState =
      (RouteOutcome.failure 503 "unavailable",
       { demoState with participants := participantRow 0 "d" 4 :: demoState.participants }) ∧
    participantRow 0 "d" 4 ∈
      ({ demoState with participants := participantRow 0 "d" 4 :: demoState.participants } :
        ChatState).participants := by
  have h := postParticipants_emitFailure_keeps_membership 0 "d" 4 demoState
    { demoState with participants := participantRow 0 "d" 4 :: demoState.participants }
    (participantRow 0 "d" 4) ChatError.unavailable
    (fun _ => Except.error ChatError.unavailable) (by decide) rfl
  exact ⟨h.1, h.2⟩

theorem postParticipants_emits_join_message_witness :
    ({ demoState with
        participants := participantRow 0 "d" 4 :: demoState.participants,
        messages :=
          { id := 3, conversationId := 0, senderUserId := none, text := "d joined",
            systemEvent := some SystemEvent.join, createdAt := 4 } :: demoState.messages,
        nextMessageId := 4 } : ChatState).messages =
      { id := 3, conversationId := 0, senderUserId := none, text := "d joined",
        systemEvent := some SystemEvent.join, createdAt := 4 } :: demoState.messages :=
  postParticipants_emits_join_message 0 "d" 4 demoState
    { demoState with
      participants := participantRow 0 "d" 4 :: demoState.participants,
      messages :=
        { id := 3, conversationId := 0, senderUserId := none, text := "d joined",
          systemEvent := some SystemEvent.join, createdAt := 4 } :: demoState.messages,
      nextMessageId := 4 }
    (participantRow 0 "d" 4) (by decide)

theorem listMessages_pagination_witness :
    listMessages 0 "a" none (some 2) demoState =
      Except.ok
        [{ id := 2, conversationId := 0, senderUserId := some "a", text := "m3",
           systemEvent := none, createdAt := 3 },
         { id := 1, conversationId := 0, senderUserId := some "b", text := "m2",
           systemEvent := none, createdAt := 2 }] ∧
    listMessages 0 "a" (some (2, 1)) (some 2) demoState =
      Except.ok
        [{ id := 0, conversationId := 0, senderUserId := some "a", text := "m1",
           systemEvent := none, createdAt := 1 }] := by
  have h := listMessages_pagination demoState 0 "a" (some 2) (by decide) (by decide)
  have h2 := h.2.2
    { id := 1, conversationId := 0, senderUserId := some "b", text := "m2",
      systemEvent := none, createdAt := 2 } (by decide)
  exact ⟨h.1.trans (by decide), h2.1.trans (by decide)⟩

theorem conversation_never_without_participants_witness :
    ConversationsHaveParticipants
      { conversations := [{ id := 0, kind := ConvKind.group, name := some "Trip", createdAt := 0 }],
        participants := [participantRow 0 "a" 0, participantRow 0 "b" 0],
        messages := [], reactions := [], bookmarks := [],
        nextConversationId := 1, nextMessageId := 0 } :=
  conversation_never_without_participants.1 _
    (Relation.ReflTransGen.single (Step.createConv
      (show createConversation ConvKind.group (some "Trip") ["a", "b"] 0 initialState =
          Except.ok
            ({ id := 0, kind := ConvKind.group, name := some "Trip", createdAt := 0 },
             { conversations :=
                 [{ id := 0, kind := ConvKind.group, name := some "Trip", createdAt := 0 }],
               participants := [participantRow 0 "a" 0, participantRow 0 "b" 0],
               messages := [], reactions := [], bookmarks := [],
               nextConversationId := 1, nextMessageId := 0 })
        from by decide)))
